import Mathlib

/-!
Verification of the robot-arm firmware servo command engine.

Shallow embedding of the servo command/motion engine of the robot-arm
firmware (files `src/firmware/commands.c`, `src/firmware/pca9685.c`,
`src/firmware/serial.c`, `src/firmware/lcd_menu.c`).

C machine integers are modelled as `Nat` (all values involved are unsigned);
wrap-around is written explicitly as `% 2^w` exactly where the C computation
can exceed the width of its type.  Signed C arithmetic (the `int16_t`/`int32_t`
interpolation in `cmd_execute_move`) is modelled as `Int` with `Int.tdiv`,
which truncates toward zero exactly as C integer division does.
-/

namespace RobotArm

/-! ## Constants (serial.h, pca9685.h) -/

/-- Constant `NUM_SERVOS = 6` (serial.h). -/
def NUM_SERVOS : Nat := 6

/-- Constant `SERVO_MIN_PULSE = 500` (pca9685.h). -/
def SERVO_MIN_PULSE : Nat := 500

/-- Constant `SERVO_MAX_PULSE = 2500` (pca9685.h). -/
def SERVO_MAX_PULSE : Nat := 2500

/-- Constant `PCA9685_CHANNELS = 16` (pca9685.h). -/
def PCA9685_CHANNELS : Nat := 16

/-- Constant `PCA9685_LED0_ON_L`, the LED register base; the exact numeric value is
irrelevant to the claims, only the per-channel offset `channel * 4` matters. -/
def PCA9685_LED0_ON_L : Nat := 6

/-! ## Channel driver (pca9685.c)

Hardware effects are modelled as the list of register-block writes a call
produces.  `pca9685_set_pwm` writes one 4-byte block (ON low/high, OFF
low/high) using I2C auto-increment; we record the start register and the four
bytes in order. -/

/-- One 4-byte duty register-block write issued by `pca9685_set_pwm`. -/
structure PwmRegWrite where
  reg : Nat
  on_l : Nat
  on_h : Nat
  off_l : Nat
  off_h : Nat
  deriving Repr, DecidableEq

/-- Model of `pca9685_set_pwm(address, channel, on, off)` (pca9685.c:70-87): rejects
`channel >= PCA9685_CHANNELS`, otherwise writes the 4-byte block at
`LED0_ON_L + channel*4`: `on & 0xFF`, `(on >> 8) & 0xFF`, `off & 0xFF`,
`(off >> 8) & 0xFF`. -/
def pca9685_set_pwm (channel on_tick off_tick : Nat) : List PwmRegWrite :=
  if channel ≥ PCA9685_CHANNELS then
    []
  else
    [{ reg := PCA9685_LED0_ON_L + channel * 4,
       on_l := on_tick % 256, on_h := on_tick / 256 % 256,
       off_l := off_tick % 256, off_h := off_tick / 256 % 256 }]

/-- The 12-bit duty computation of `pca9685_set_servo_pwm_us`
(pca9685.c:111-125): `pwm_value = (uint32_t)pulse_us * 4096 / 20000`,
then clamped to 4095.  The `uint32_t` product of a `uint16_t` pulse with 4096
cannot overflow, so plain `Nat` arithmetic is exact. -/
def pca9685_pwm_value (pulse_us : Nat) : Nat :=
  let pwm_value := pulse_us * 4096 / 20000
  if pwm_value > 4095 then 4095 else pwm_value

/-- Model of `pca9685_set_servo_pwm_us(address, channel, pulse_us)` (pca9685.c:111-125):
one `pca9685_set_pwm` call with ON time 0 and OFF time the computed duty. -/
def pca9685_set_servo_pwm_us (channel pulse_us : Nat) : List PwmRegWrite :=
  pca9685_set_pwm channel 0 (pca9685_pwm_value pulse_us)

/-- Angle-to-pulse conversion shared by `cmd_set_servo_angle` (commands.c:36)
and `pca9685_set_servo_angle` (pca9685.c:101):
`SERVO_MIN_PULSE + (uint32_t)angle * (SERVO_MAX_PULSE - SERVO_MIN_PULSE) / 180`
with truncating division.  The operands fit in `uint32_t`, so `Nat` is exact. -/
def servo_pulse_from_angle (angle : Nat) : Nat :=
  SERVO_MIN_PULSE + angle * (SERVO_MAX_PULSE - SERVO_MIN_PULSE) / 180

/-- Model of `pca9685_set_servo_angle(address, channel, angle)` (pca9685.c:93-105):
clamps the angle to 180, converts to a pulse width and forwards to
`pca9685_set_servo_pwm_us`. -/
def pca9685_set_servo_angle (channel angle : Nat) : List PwmRegWrite :=
  let a := if angle > 180 then 180 else angle
  pca9685_set_servo_pwm_us channel (servo_pulse_from_angle a)

/-! ## Servo state and command engine (commands.c)

The two static arrays `servo_angles[16]` (uint8_t) and
`servo_pulse_widths[16]` (uint16_t) are modelled as total functions from the
channel index; every C access is guarded below `NUM_SERVOS ≤ 16`, so a
function on `Nat` is a faithful view of the arrays. -/

/-- The engine's stored per-channel state: `servo_angles` and
`servo_pulse_widths` (commands.c:6-7). -/
structure EngineState where
  servo_angles : Nat → Nat
  servo_pulse_widths : Nat → Nat

/-- State after `cmd_init` (commands.c:13-20): the static arrays are
zero-initialized and the init loop sets channels `0..NUM_SERVOS-1` to
angle 90 and pulse width 1500. -/
def initState : EngineState where
  servo_angles := fun c => if c < NUM_SERVOS then 90 else 0
  servo_pulse_widths := fun c => if c < NUM_SERVOS then 1500 else 0

/-- Model of `cmd_set_servo_angle(channel, angle)` (commands.c:25-44): no-op for
`channel >= NUM_SERVOS`; clamps the angle to 180; stores the angle and the
derived pulse width.  The `angle` parameter is a C `uint8_t`, so callers can
only supply values below 256. -/
def cmd_set_servo_angle (st : EngineState) (channel angle : Nat) : EngineState :=
  if channel ≥ NUM_SERVOS then
    st
  else
    let a := if angle > 180 then 180 else angle
    let pulse_us := servo_pulse_from_angle a
    { servo_angles := fun c => if c = channel then a else st.servo_angles c,
      servo_pulse_widths := fun c => if c = channel then pulse_us else st.servo_pulse_widths c }

/-- Model of `cmd_set_servo_pwm_us(channel, pulse_us)` (commands.c:49-64): no-op for
`channel >= NUM_SERVOS`; clamps the pulse width to 20000; stores only the
pulse width (the stored angle is intentionally left untouched). -/
def cmd_set_servo_pwm_us (st : EngineState) (channel pulse_us : Nat) : EngineState :=
  if channel ≥ NUM_SERVOS then
    st
  else
    let p := if pulse_us > 20000 then 20000 else pulse_us
    { servo_angles := st.servo_angles,
      servo_pulse_widths := fun c => if c = channel then p else st.servo_pulse_widths c }

/-- Model of `cmd_get_servo_angle(channel)` (commands.c:69-74): default 90 for an
out-of-range channel. -/
def cmd_get_servo_angle (st : EngineState) (channel : Nat) : Nat :=
  if channel ≥ NUM_SERVOS then 90 else st.servo_angles channel

/-- Model of `cmd_get_servo_pwm_us(channel)` (commands.c:79-84): default 1500 for an
out-of-range channel. -/
def cmd_get_servo_pwm_us (st : EngineState) (channel : Nat) : Nat :=
  if channel ≥ NUM_SERVOS then 1500 else st.servo_pulse_widths channel

/-- Model of `cmd_execute_pose(angles, num_servos)` (commands.c:89-98): clamps the
count to `NUM_SERVOS`, then applies `cmd_set_servo_angle` to channels
`0..count-1` in order. -/
def cmd_execute_pose (st : EngineState) (angles : List Nat) (num_servos : Nat) : EngineState :=
  let n := if num_servos > NUM_SERVOS then NUM_SERVOS else num_servos
  (List.range n).foldl (fun s i => cmd_set_servo_angle s i (angles.getD i 0)) st

/-! ### cmd_execute_move (commands.c:104-155) -/

/-- Step count of a MOVE (commands.c:112-115): `duration_ms / 20`, with a
minimum of one step.  `duration_ms` is a `uint16_t`, so the quotient fits. -/
def numSteps (duration_ms : Nat) : Nat :=
  let n := duration_ms / 20
  if n = 0 then 1 else n

/-- Interpolation factor at a step (commands.c:129):
`(step * 1000UL) / num_steps`, computed in `uint32_t` (no overflow since
`step ≤ num_steps ≤ 3276`). -/
def moveFactor (step num_steps : Nat) : Nat :=
  step * 1000 / num_steps

/-- The clamped angle commanded for one channel at one step
(commands.c:135-142): `start + deltas * factor / 1000` in signed arithmetic
with C truncating division, clamped to `[0, 180]`, then cast to `uint8_t`
(exact after the clamp). -/
def moveStepAngle (start delta : Int) (step num_steps : Nat) : Nat :=
  let factor := moveFactor step num_steps
  let new_angle := start + Int.tdiv (delta * (factor : Int)) 1000
  let lo := if new_angle < 0 then 0 else new_angle
  let hi := if lo > 180 then 180 else lo
  hi.toNat

/-- Model of `cmd_execute_move(duration_ms, target_angles, num_servos)`
(commands.c:104-155).  Returns the final engine state together with the
trace of `pca9685_set_servo_angle` commands: one inner list per interpolation
step (steps `0..num_steps` inclusive), each holding the `(channel, angle)`
pair commanded for channels `0..count-1` in order.  The snapshot
`start_angles[i] = servo_angles[i]` and `deltas[i] = target[i] - servo_angles[i]`
is taken before any write; after the sweep the stored angles (only) are set to
the exact targets. -/
def cmd_execute_move (st : EngineState) (duration_ms : Nat) (target_angles : List Nat)
    (num_servos : Nat) : EngineState × List (List (Nat × Nat)) :=
  let n := if num_servos > NUM_SERVOS then NUM_SERVOS else num_servos
  let ns := numSteps duration_ms
  let start : Nat → Int := fun i => (st.servo_angles i : Int)
  let delta : Nat → Int := fun i => (target_angles.getD i 0 : Int) - (st.servo_angles i : Int)
  let trace := (List.range (ns + 1)).map (fun step =>
    (List.range n).map (fun i => (i, moveStepAngle (start i) (delta i) step ns)))
  let final := (List.range n).foldl
    (fun s i =>
      { servo_angles := fun c => if c = i then target_angles.getD i 0 else s.servo_angles c,
        servo_pulse_widths := s.servo_pulse_widths })
    st
  (final, trace)

/-! ## Command-line protocol (serial.c)

A command line is modelled as a `List Char` (the NUL-terminated buffer after
`read_command_line`, which admits only printable ASCII).  Parsers consume a
prefix and return the rest of the list, mirroring the C `const char **`
in/out pointers. -/

/-- Command result codes (serial.h). -/
def CMD_OK : Nat := 0
/-- Result code `CMD_ERROR` (serial.h). -/
def CMD_ERROR : Nat := 1
/-- Result code `CMD_UNKNOWN` (serial.h). -/
def CMD_UNKNOWN : Nat := 3
/-- Result code `CMD_INVALID_SERVO` (serial.h). -/
def CMD_INVALID_SERVO : Nat := 4
/-- Result code `CMD_INVALID_ANGLE` (serial.h). -/
def CMD_INVALID_ANGLE : Nat := 5

/-- Model of `parse_hex_digit(c)` (serial.c:80-91): value of one hex digit,
`0xFF` on anything else. -/
def parse_hex_digit (c : Char) : Nat :=
  if '0' ≤ c ∧ c ≤ '9' then c.toNat - '0'.toNat
  else if 'A' ≤ c ∧ c ≤ 'F' then c.toNat - 'A'.toNat + 10
  else if 'a' ≤ c ∧ c ≤ 'f' then c.toNat - 'a'.toNat + 10
  else 0xFF

/-- ASCII decimal digit test (`**p >= '0' && **p <= '9'`, serial.c:121,126). -/
def isDecDigit (c : Char) : Bool :=
  '0' ≤ c ∧ c ≤ '9'

/-- Model of `skip_whitespace(&p)` (serial.c:108-112): drop leading spaces and tabs. -/
def skip_whitespace : List Char → List Char
  | c :: rest => if c = ' ' ∨ c = '\t' then skip_whitespace rest else c :: rest
  | [] => []

/-- The accumulation loop of `parse_uint16` (serial.c:126-129):
`*result = *result * 10 + (**p - '0')` on a `uint16_t`, i.e. modulo 2^16,
consuming digits while they last.  Returns the accumulated value and the
rest of the input. -/
def parse_uint16_digits : List Char → Nat → Nat × List Char
  | c :: rest, acc =>
      if isDecDigit c then
        parse_uint16_digits rest ((acc * 10 + (c.toNat - '0'.toNat)) % 65536)
      else
        (acc, c :: rest)
  | [], acc => (acc, [])

/-- Model of `parse_uint16(&p, &result)` (serial.c:119-132): fails (`none`) when the
first character is not a digit, otherwise accumulates digits into a
`uint16_t` with no overflow check. -/
def parse_uint16 (s : List Char) : Option (Nat × List Char) :=
  match s with
  | [] => none
  | c :: _ =>
      if isDecDigit c then some (parse_uint16_digits s 0) else none

/-- Model of `skip_comma(&p)` (serial.c:138-149): skip whitespace, then accept a comma
or end of string; anything else is an error (`none`). -/
def skip_comma (s : List Char) : Option (List Char) :=
  match skip_whitespace s with
  | ',' :: rest => some rest
  | [] => some []
  | _ => none

/-- Loop body of `parse_angle_list` (serial.c:155-182).  The C loop runs
while `**p != '\0' && count < max_count`; each iteration either returns 0
(modelled `none`) or appends one angle, so the remaining capacity
`max_count - count` is a decreasing fuel.  A parsed angle is validated
(`> 180` rejected) and stored through a `uint8_t` cast (`% 256`, exact after
the validation). -/
def parse_angle_list_go : Nat → List Char → List Nat → Option (List Nat)
  | 0, _, acc => some acc
  | _ + 1, [], acc => some acc
  | fuel + 1, c :: rest, acc =>
      match skip_whitespace (c :: rest) with
      | [] => some acc
      | s1 =>
        match parse_uint16 s1 with
        | none => none
        | some (angle, s2) =>
            if angle > 180 then none
            else
              match skip_comma s2 with
              | none => none
              | some s3 => parse_angle_list_go fuel s3 (acc ++ [angle % 256])

/-- Model of `parse_angle_list(&p, angles, max_count)` (serial.c:155-182): returns the
parsed angles (`none` on a parse error; the C function signals an error by
returning count 0 and the callers treat an empty result the same way). -/
def parse_angle_list (s : List Char) (max_count : Nat) : Option (List Nat) :=
  parse_angle_list_go max_count s []

/-- Model of `strchr(cmd, ':')` followed by `p = colon + 1` (serial.c:208-214):
the suffix after the first colon, `none` when there is no colon. -/
def after_first_colon : List Char → Option (List Char)
  | [] => none
  | c :: rest => if c = ':' then some rest else after_first_colon rest

/-- Model of `execute_pwm_command(cmd)` (serial.c:230-266): `P<hex-channel>:<pulse>`.
Validates length, leading `P`/`p`, the hex channel against `NUM_SERVOS`, and
the pulse against 20000, then calls `cmd_set_servo_pwm_us`.  Returns the new
engine state and the result code. -/
def execute_pwm_command (st : EngineState) (cmd : List Char) : EngineState × Nat :=
  if cmd.length < 4 then (st, CMD_ERROR)
  else if ¬ (cmd.getD 0 ' ' = 'P' ∨ cmd.getD 0 ' ' = 'p') then (st, CMD_UNKNOWN)
  else
    let channel := parse_hex_digit (cmd.getD 1 ' ')
    if channel = 0xFF ∨ channel ≥ NUM_SERVOS then (st, CMD_INVALID_SERVO)
    else
      match after_first_colon cmd with
      | none => (st, CMD_ERROR)
      | some p =>
        match parse_uint16 p with
        | none => (st, CMD_INVALID_ANGLE)
        | some (pulse_us, _) =>
            if pulse_us > 20000 then (st, CMD_INVALID_ANGLE)
            else (cmd_set_servo_pwm_us st channel pulse_us, CMD_OK)

/-- Model of `execute_servo_command(cmd)` (serial.c:188-224): `S<hex-channel>:<angle>`.
Same shape as the PWM command with the 180-degree bound. -/
def execute_servo_command (st : EngineState) (cmd : List Char) : EngineState × Nat :=
  if cmd.length < 4 then (st, CMD_ERROR)
  else if ¬ (cmd.getD 0 ' ' = 'S' ∨ cmd.getD 0 ' ' = 's') then (st, CMD_UNKNOWN)
  else
    let channel := parse_hex_digit (cmd.getD 1 ' ')
    if channel = 0xFF ∨ channel ≥ NUM_SERVOS then (st, CMD_INVALID_SERVO)
    else
      match after_first_colon cmd with
      | none => (st, CMD_ERROR)
      | some p =>
        match parse_uint16 p with
        | none => (st, CMD_INVALID_ANGLE)
        | some (angle, _) =>
            if angle > 180 then (st, CMD_INVALID_ANGLE)
            else (cmd_set_servo_angle st channel (angle % 256), CMD_OK)

/-- Model of `execute_pose_command(cmd)` (serial.c:311-331): strips the 5-character
`POSE ` prefix, parses the angle list into a local array, and only on full
success executes the pose; a parse error (or an empty list) leaves the engine
untouched and reports `CMD_ERROR`. -/
def execute_pose_command (st : EngineState) (cmd : List Char) : EngineState × Nat :=
  if cmd.length < 6 then (st, CMD_ERROR)
  else
    let p := cmd.drop 5
    match parse_angle_list p NUM_SERVOS with
    | none => (st, CMD_ERROR)
    | some angles =>
        if angles.length = 0 then (st, CMD_ERROR)
        else (cmd_execute_pose st angles angles.length, CMD_OK)

/-- Model of `execute_move_command(cmd)` (serial.c:339-369): strips `MOVE `, parses the
duration then the angle list, and only on full success executes the move
(hardware trace dropped here; the engine-level trace is the second component
of `cmd_execute_move`). -/
def execute_move_command (st : EngineState) (cmd : List Char) : EngineState × Nat :=
  if cmd.length < 7 then (st, CMD_ERROR)
  else
    let p := cmd.drop 5
    match parse_uint16 (skip_whitespace p) with
    | none => (st, CMD_ERROR)
    | some (duration_ms, p2) =>
      match parse_angle_list (skip_whitespace p2) NUM_SERVOS with
      | none => (st, CMD_ERROR)
      | some angles =>
          if angles.length = 0 then (st, CMD_ERROR)
          else ((cmd_execute_move st duration_ms angles angles.length).1, CMD_OK)

/-! ## Interactive menu state machine (lcd_menu.c) -/

/-- Keypad events (buttons.h). -/
inductive Button where
  | none | up | down | left | right | select
  deriving Repr, DecidableEq

/-- Enumeration `menu_state_t` (lcd_menu.c:8-14). -/
inductive MenuState where
  | menu | motors | calibration | pose | move
  deriving Repr, DecidableEq

/-- The menu component's mutable state (lcd_menu.c:24-30) together with the
engine state it drives through the command layer. -/
structure MenuCtx where
  current_state : MenuState
  menu_selection : Nat
  selected_servo : Nat
  move_duration : Nat
  temp_angles : Nat → Nat
  engine : EngineState

/-- The `STATE_MOTORS` branch of `lcd_menu_update` (lcd_menu.c:253-303),
entered when `current_state == STATE_MOTORS` and a button event is pending:
UP/DOWN move `selected_servo` with wraparound at the ends; RIGHT increments
the selected channel's live angle by 5 (clamped to 180, `cmd_set_servo_angle`
invoked only when the angle was below 180); LEFT decrements by 5 (floored at
0, invoked only when the angle was above 0); SELECT returns to `STATE_MENU`.
Display updates and delays have no state effect and are omitted. -/
def lcd_menu_update_motors (ctx : MenuCtx) (button : Button) : MenuCtx :=
  match button with
  | Button.up =>
      { ctx with selected_servo :=
          if ctx.selected_servo > 0 then ctx.selected_servo - 1 else NUM_SERVOS - 1 }
  | Button.down =>
      { ctx with selected_servo :=
          if ctx.selected_servo < NUM_SERVOS - 1 then ctx.selected_servo + 1 else 0 }
  | Button.right =>
      let angle := cmd_get_servo_angle ctx.engine ctx.selected_servo
      if angle < 180 then
        let a := angle + 5
        let a := if a > 180 then 180 else a
        { ctx with engine := cmd_set_servo_angle ctx.engine ctx.selected_servo a }
      else ctx
  | Button.left =>
      let angle := cmd_get_servo_angle ctx.engine ctx.selected_servo
      if angle > 0 then
        let a := if angle ≥ 5 then angle - 5 else 0
        { ctx with engine := cmd_set_servo_angle ctx.engine ctx.selected_servo a }
      else ctx
  | Button.select =>
      { ctx with current_state := MenuState.menu }
  | Button.none => ctx

/-! ## Spec-side definitions

These two definitions follow the SPEC's wording (not the code) and exist only
to compare the code's behaviour against it. -/

/-- Modelled from the spec: `round(a / b)` with rounding to the nearest
integer, as in the spec's duty formula `duty = round(pulse_us * 4096 / 20000)`
(spec §4.2).  The code itself has no rounding step. -/
def round_div (a b : Nat) : Nat :=
  (a + b / 2) / b

/-- Modelled from the spec: the plain decimal value written in a digit
string, with no 16-bit wraparound (spec §4.3 "Numeric fields are unsigned
decimal"). -/
def decValue (ds : List Char) : Nat :=
  ds.foldl (fun a c => a * 10 + (c.toNat - '0'.toNat)) 0

/-! ## Derived predicates used by the invariant claims -/

/-- Both stored ranges of the data model (spec §3): angles in `[0,180]`,
pulse widths in `[0,20000]`, on the configured channels. -/
def EngineWF (st : EngineState) : Prop :=
  ∀ c, c < NUM_SERVOS → st.servo_angles c ≤ 180 ∧ st.servo_pulse_widths c ≤ 20000

instance : DecidablePred EngineWF := fun st =>
  Nat.decidableBallLT NUM_SERVOS (fun c _ => st.servo_angles c ≤ 180 ∧ st.servo_pulse_widths c ≤ 20000)

/-- The angle/pulse consistency relation of the data model (spec §3) at one
channel: the stored pulse width is the one derived from the stored angle. -/
def consistentAt (st : EngineState) (c : Nat) : Prop :=
  st.servo_pulse_widths c = SERVO_MIN_PULSE + st.servo_angles c * (SERVO_MAX_PULSE - SERVO_MIN_PULSE) / 180

instance (st : EngineState) (c : Nat) : Decidable (consistentAt st c) :=
  inferInstanceAs (Decidable (_ = _))

/-! ## Helper lemmas -/

theorem getD_range_map {α : Type} (f : Nat → α) {n k : Nat} (h : k < n) (d : α) :
    ((List.range n).map f).getD k d = f k := by
  rw [List.getD_eq_getElem?_getD]
  simp [List.getElem?_map, List.getElem?_range h]

theorem clamp_count_eq_min (n m : Nat) : (if n > m then m else n) = min n m := by
  split <;> omega

theorem servo_pulse_from_angle_le (a : Nat) (h : a ≤ 180) :
    servo_pulse_from_angle a ≤ 20000 := by
  unfold servo_pulse_from_angle SERVO_MIN_PULSE SERVO_MAX_PULSE
  omega

/-- The first interpolation step commands the snapshotted start angle. -/
theorem moveStepAngle_zero (a : Nat) (d : Int) (ns : Nat) (h : a ≤ 180) :
    moveStepAngle (a : Int) d 0 ns = a := by
  unfold moveStepAngle moveFactor
  dsimp only
  simp only [Nat.zero_mul, Nat.zero_div, Nat.cast_zero, mul_zero, Int.zero_tdiv, add_zero]
  split_ifs <;> omega

/-- The last interpolation step commands exactly the target angle. -/
theorem moveStepAngle_last (a t : Nat) (ns : Nat) (hns : 0 < ns) (ht : t ≤ 180) :
    moveStepAngle (a : Int) ((t : Int) - (a : Int)) ns ns = t := by
  unfold moveStepAngle moveFactor
  dsimp only
  rw [Nat.mul_div_cancel_left 1000 hns]
  have hcast : ((1000 : Nat) : Int) = 1000 := by norm_num
  rw [hcast, Int.mul_tdiv_cancel _ (by norm_num)]
  split_ifs <;> omega

/-- Characterization of the final-update loop of `cmd_execute_move`
(commands.c:151-155): it overwrites the stored angles of channels below the
count with the exact targets and touches nothing else. -/
theorem move_final_foldl_angles (ts : List Nat) :
    ∀ (n : Nat) (st : EngineState) (c : Nat),
    ((List.range n).foldl
        (fun s i =>
          { servo_angles := fun c2 => if c2 = i then ts.getD i 0 else s.servo_angles c2,
            servo_pulse_widths := s.servo_pulse_widths })
        st).servo_angles c
      = if c < n then ts.getD c 0 else st.servo_angles c := by
  intro n
  induction n with
  | zero => intro st c; simp
  | succ m ih =>
      intro st c
      rw [List.range_succ, List.foldl_append]
      simp only [List.foldl_cons, List.foldl_nil]
      by_cases hc : c = m
      · subst hc
        simp [ih]
      · simp only [hc, if_false]
        rw [ih]
        by_cases h2 : c < m
        · rw [if_pos h2, if_pos (by omega)]
        · rw [if_neg h2, if_neg (by omega)]

/-- The final-update loop of `cmd_execute_move` never touches pulse widths. -/
theorem move_final_foldl_pulses (ts : List Nat) :
    ∀ (n : Nat) (st : EngineState) (c : Nat),
    ((List.range n).foldl
        (fun s i =>
          { servo_angles := fun c2 => if c2 = i then ts.getD i 0 else s.servo_angles c2,
            servo_pulse_widths := s.servo_pulse_widths })
        st).servo_pulse_widths c
      = st.servo_pulse_widths c := by
  intro n
  induction n with
  | zero => intro st c; simp
  | succ m ih =>
      intro st c
      rw [List.range_succ, List.foldl_append]
      simp only [List.foldl_cons, List.foldl_nil]
      exact ih st c

/-- Stored angles after `cmd_execute_move`. -/
theorem move_angles (st : EngineState) (d : Nat) (ts : List Nat) (n c : Nat) :
    (cmd_execute_move st d ts n).1.servo_angles c
      = if c < min n NUM_SERVOS then ts.getD c 0 else st.servo_angles c := by
  unfold cmd_execute_move
  simp only
  rw [move_final_foldl_angles, clamp_count_eq_min]

/-- Stored pulse widths are untouched by `cmd_execute_move`. -/
theorem move_pulses (st : EngineState) (d : Nat) (ts : List Nat) (n c : Nat) :
    (cmd_execute_move st d ts n).1.servo_pulse_widths c = st.servo_pulse_widths c := by
  unfold cmd_execute_move
  simp only
  rw [move_final_foldl_pulses]

/-- The trace of `cmd_execute_move` has one inner list per step,
steps `0 .. numSteps` inclusive. -/
theorem move_trace_length (st : EngineState) (d : Nat) (ts : List Nat) (n : Nat) :
    (cmd_execute_move st d ts n).2.length = numSteps d + 1 := by
  unfold cmd_execute_move
  simp

/-- The step-`s` block of the `cmd_execute_move` trace. -/
theorem move_trace_block (st : EngineState) (d : Nat) (ts : List Nat) (n s : Nat)
    (hs : s < numSteps d + 1) :
    (cmd_execute_move st d ts n).2.getD s []
      = (List.range (min n NUM_SERVOS)).map
          (fun i => (i, moveStepAngle (st.servo_angles i : Int)
            ((ts.getD i 0 : Int) - (st.servo_angles i : Int)) s (numSteps d))) := by
  unfold cmd_execute_move
  simp only [clamp_count_eq_min]
  exact getD_range_map _ hs _

/-- Stored angles after `cmd_set_servo_angle` on a valid channel. -/
theorem set_angle_angles (st : EngineState) (ch a c : Nat) (h : ch < NUM_SERVOS) :
    (cmd_set_servo_angle st ch a).servo_angles c
      = if c = ch then (if a > 180 then 180 else a) else st.servo_angles c := by
  unfold cmd_set_servo_angle
  rw [if_neg (by omega)]

/-- Stored pulse widths after `cmd_set_servo_angle` on a valid channel. -/
theorem set_angle_pulses (st : EngineState) (ch a c : Nat) (h : ch < NUM_SERVOS) :
    (cmd_set_servo_angle st ch a).servo_pulse_widths c
      = if c = ch then servo_pulse_from_angle (if a > 180 then 180 else a)
        else st.servo_pulse_widths c := by
  unfold cmd_set_servo_angle
  rw [if_neg (by omega)]

/-- Characterization of the `cmd_execute_pose` loop: stored angles after the
loop, for a count already within range. -/
theorem pose_foldl_angles (ang : List Nat) :
    ∀ (n : Nat), n ≤ NUM_SERVOS → ∀ (st : EngineState) (c : Nat),
    ((List.range n).foldl (fun s i => cmd_set_servo_angle s i (ang.getD i 0)) st).servo_angles c
      = if c < n then (if ang.getD c 0 > 180 then 180 else ang.getD c 0)
        else st.servo_angles c := by
  intro n
  induction n with
  | zero => intro _ st c; simp
  | succ m ih =>
      intro hm st c
      rw [List.range_succ, List.foldl_append]
      simp only [List.foldl_cons, List.foldl_nil]
      rw [set_angle_angles _ _ _ _ (by omega)]
      by_cases hc : c = m
      · subst hc
        rw [if_pos rfl]
        split_ifs <;> first | rfl | omega
      · rw [if_neg hc, ih (by omega)]
        split_ifs <;> first | rfl | omega

/-- Characterization of the `cmd_execute_pose` loop: stored pulse widths. -/
theorem pose_foldl_pulses (ang : List Nat) :
    ∀ (n : Nat), n ≤ NUM_SERVOS → ∀ (st : EngineState) (c : Nat),
    ((List.range n).foldl (fun s i => cmd_set_servo_angle s i (ang.getD i 0)) st).servo_pulse_widths c
      = if c < n then servo_pulse_from_angle (if ang.getD c 0 > 180 then 180 else ang.getD c 0)
        else st.servo_pulse_widths c := by
  intro n
  induction n with
  | zero => intro _ st c; simp
  | succ m ih =>
      intro hm st c
      rw [List.range_succ, List.foldl_append]
      simp only [List.foldl_cons, List.foldl_nil]
      rw [set_angle_pulses _ _ _ _ (by omega)]
      by_cases hc : c = m
      · subst hc
        rw [if_pos rfl]
        split_ifs <;> first | rfl | omega
      · rw [if_neg hc, ih (by omega)]
        split_ifs <;> first | rfl | omega

/-- Stored angles after `cmd_execute_pose`. -/
theorem pose_angles (st : EngineState) (ang : List Nat) (count c : Nat) :
    (cmd_execute_pose st ang count).servo_angles c
      = if c < min count NUM_SERVOS then (if ang.getD c 0 > 180 then 180 else ang.getD c 0)
        else st.servo_angles c := by
  unfold cmd_execute_pose
  rw [clamp_count_eq_min]
  exact pose_foldl_angles ang _ (Nat.min_le_right _ _) st c

/-- Stored pulse widths after `cmd_execute_pose`. -/
theorem pose_pulses (st : EngineState) (ang : List Nat) (count c : Nat) :
    (cmd_execute_pose st ang count).servo_pulse_widths c
      = if c < min count NUM_SERVOS then
          servo_pulse_from_angle (if ang.getD c 0 > 180 then 180 else ang.getD c 0)
        else st.servo_pulse_widths c := by
  unfold cmd_execute_pose
  rw [clamp_count_eq_min]
  exact pose_foldl_pulses ang _ (Nat.min_le_right _ _) st c

/-- Bound on a defaulted list read when all elements are bounded. -/
theorem getD_le_180 {ts : List Nat} (hts : ∀ a ∈ ts, a ≤ 180) (i : Nat) :
    ts.getD i 0 ≤ 180 := by
  by_cases h : i < ts.length
  · rw [List.getD_eq_getElem ts 0 h]
    exact hts _ (List.getElem_mem h)
  · rw [List.getD_eq_default ts 0 (by omega)]
    omega

/-! ## Claims -/

/-- C1: for every engine state with all stored angles in `[0,180]` and every
6-element target array with values in `[0,180]`, `cmd_execute_move` with
`duration_ms = 1000` and `count = NUM_SERVOS = 6` computes
`num_steps = max(1, 1000/20) = 50` and performs exactly 51 interpolation
updates per channel (steps 0 through 50 inclusive); the step-0 update
commands each channel's snapshotted start angle and the step-50 update
commands exactly the target angle. -/
theorem C1_move_1000_trace (st : EngineState) (ts : List Nat)
    (hst : ∀ c, c < NUM_SERVOS → st.servo_angles c ≤ 180)
    (hts : ∀ a ∈ ts, a ≤ 180) (_hlen : ts.length = NUM_SERVOS) :
    numSteps 1000 = 50 ∧
    (cmd_execute_move st 1000 ts NUM_SERVOS).2.length = 51 ∧
    (∀ s, s < 51 → ((cmd_execute_move st 1000 ts NUM_SERVOS).2.getD s []).length = NUM_SERVOS) ∧
    (∀ s, s < 51 → ∀ i, i < NUM_SERVOS →
      (((cmd_execute_move st 1000 ts NUM_SERVOS).2.getD s []).getD i (0, 0)).1 = i) ∧
    (∀ i, i < NUM_SERVOS →
      ((cmd_execute_move st 1000 ts NUM_SERVOS).2.getD 0 []).getD i (0, 0)
        = (i, st.servo_angles i) ∧
      ((cmd_execute_move st 1000 ts NUM_SERVOS).2.getD 50 []).getD i (0, 0)
        = (i, ts.getD i 0)) := by
  have h50 : numSteps 1000 = 50 := rfl
  have hmin : min NUM_SERVOS NUM_SERVOS = NUM_SERVOS := Nat.min_self _
  refine ⟨h50, ?_, ?_, ?_, ?_⟩
  · rw [move_trace_length, h50]
  · intro s hs
    rw [move_trace_block st 1000 ts NUM_SERVOS s (by omega), hmin]
    simp
  · intro s hs i hi
    rw [move_trace_block st 1000 ts NUM_SERVOS s (by omega), hmin, getD_range_map _ hi]
  · intro i hi
    constructor
    · rw [move_trace_block st 1000 ts NUM_SERVOS 0 (by omega), hmin,
        getD_range_map _ hi, h50, moveStepAngle_zero _ _ _ (hst i hi)]
    · rw [move_trace_block st 1000 ts NUM_SERVOS 50 (by omega), hmin,
        getD_range_map _ hi, h50,
        moveStepAngle_last _ _ _ (by omega) (getD_le_180 hts i)]

theorem C1_witness :
    ((cmd_execute_move initState 1000 [0, 45, 90, 135, 180, 10] NUM_SERVOS).2.getD 50 []).getD 3 (0, 0)
      = (3, [0, 45, 90, 135, 180, 10].getD 3 0) :=
  ((C1_move_1000_trace initState [0, 45, 90, 135, 180, 10]
    (by decide) (by decide) (by decide)).2.2.2.2 3 (by decide)).2

/-- C2: after `cmd_execute_move(duration, targets, count)` with
`count ≤ NUM_SERVOS`, the stored angle of every channel below the count is
exactly the target (not the last interpolated value); `duration = 0` performs
one step and ends in the target state; `count = 0` changes no channel's
state. -/
theorem C2_move_final (st : EngineState) (d : Nat) (ts : List Nat) (count : Nat)
    (hc : count ≤ NUM_SERVOS) :
    (∀ i, i < count → (cmd_execute_move st d ts count).1.servo_angles i = ts.getD i 0) ∧
    numSteps 0 = 1 ∧
    (∀ i, i < NUM_SERVOS → (cmd_execute_move st 0 ts NUM_SERVOS).1.servo_angles i = ts.getD i 0) ∧
    (∀ c, (cmd_execute_move st d ts 0).1.servo_angles c = st.servo_angles c ∧
          (cmd_execute_move st d ts 0).1.servo_pulse_widths c = st.servo_pulse_widths c) := by
  refine ⟨?_, rfl, ?_, ?_⟩
  · intro i hi
    rw [move_angles, if_pos (by omega)]
  · intro i hi
    rw [move_angles, if_pos (by omega)]
  · intro c
    exact ⟨by rw [move_angles, if_neg (by omega)], move_pulses st d ts 0 c⟩

theorem C2_witness :
    (cmd_execute_move initState 700 [5, 10, 15] 3).1.servo_angles 1 = [5, 10, 15].getD 1 0 :=
  (C2_move_final initState 700 [5, 10, 15] 3 (by decide)).1 1 (by decide)

/-- C3: `cmd_set_servo_angle` on a valid channel clamps angles above 180 to
180 (never rejects, never wraps), round-trips angles in `[0,180]` through
`cmd_get_servo_angle`, stores the pulse width
`SERVO_MIN_PULSE + angle * (SERVO_MAX_PULSE - SERVO_MIN_PULSE) / 180`
(truncating division, `MIN = 500`, `MAX = 2500`), and is a state-preserving
no-op on a channel at or above `NUM_SERVOS`. -/
theorem C3_set_angle_props (st : EngineState) (c a : Nat) (hc : c < NUM_SERVOS) :
    SERVO_MIN_PULSE = 500 ∧ SERVO_MAX_PULSE = 2500 ∧
    (a > 180 → (cmd_set_servo_angle st c a).servo_angles c = 180) ∧
    (a ≤ 180 → cmd_get_servo_angle (cmd_set_servo_angle st c a) c = a) ∧
    (a ≤ 180 → (cmd_set_servo_angle st c a).servo_pulse_widths c
        = SERVO_MIN_PULSE + a * (SERVO_MAX_PULSE - SERVO_MIN_PULSE) / 180) ∧
    (∀ (st2 : EngineState) (c2 a2 : Nat), c2 ≥ NUM_SERVOS → cmd_set_servo_angle st2 c2 a2 = st2) := by
  refine ⟨rfl, rfl, ?_, ?_, ?_, ?_⟩
  · intro ha
    rw [set_angle_angles st c a c hc, if_pos rfl, if_pos ha]
  · intro ha
    unfold cmd_get_servo_angle
    rw [if_neg (by omega), set_angle_angles st c a c hc, if_pos rfl, if_neg (by omega)]
  · intro ha
    rw [set_angle_pulses st c a c hc, if_pos rfl, if_neg (by omega)]
    rfl
  · intro st2 c2 a2 h2
    unfold cmd_set_servo_angle
    rw [if_pos (by omega)]

theorem C3_witness :
    (cmd_set_servo_angle initState 2 200).servo_angles 2 = 180 ∧
    cmd_get_servo_angle (cmd_set_servo_angle initState 2 37) 2 = 37 :=
  ⟨(C3_set_angle_props initState 2 200 (by decide)).2.2.1 (by decide),
   (C3_set_angle_props initState 2 37 (by decide)).2.2.2.1 (by decide)⟩

/-! ### C4: invariants -/

theorem WF_set_angle (st : EngineState) (c a : Nat) (h : EngineWF st) :
    EngineWF (cmd_set_servo_angle st c a) := by
  by_cases hge : c ≥ NUM_SERVOS
  · unfold cmd_set_servo_angle
    rw [if_pos hge]
    exact h
  · intro c2 hc2
    rw [set_angle_angles st c a c2 (by omega), set_angle_pulses st c a c2 (by omega)]
    by_cases he : c2 = c
    · rw [if_pos he, if_pos he]
      constructor
      · split <;> omega
      · apply servo_pulse_from_angle_le
        split <;> omega
    · rw [if_neg he, if_neg he]
      exact h c2 hc2

theorem WF_set_pwm (st : EngineState) (c p : Nat) (h : EngineWF st) :
    EngineWF (cmd_set_servo_pwm_us st c p) := by
  unfold cmd_set_servo_pwm_us
  split
  · exact h
  · intro c2 hc2
    dsimp only
    refine ⟨(h c2 hc2).1, ?_⟩
    split
    · split <;> omega
    · exact (h c2 hc2).2

theorem WF_pose (st : EngineState) (ang : List Nat) (count : Nat) (h : EngineWF st) :
    EngineWF (cmd_execute_pose st ang count) := by
  intro c2 hc2
  rw [pose_angles, pose_pulses]
  split
  · constructor
    · split <;> omega
    · apply servo_pulse_from_angle_le
      split <;> omega
  · exact h c2 hc2

theorem WF_move (st : EngineState) (d : Nat) (ts : List Nat) (count : Nat)
    (h : EngineWF st) (hts : ∀ x ∈ ts, x ≤ 180) :
    EngineWF (cmd_execute_move st d ts count).1 := by
  intro c2 hc2
  rw [move_angles, move_pulses]
  refine ⟨?_, (h c2 hc2).2⟩
  split
  · exact getD_le_180 hts c2
  · exact (h c2 hc2).1

/-- C4, counterexample: `cmd_execute_move` updates stored angles but not
stored pulse widths, so the angle/pulse consistency the claim asserts for the
whole angle API fails right after a MOVE: from the initial state,
`cmd_execute_move(0, [0], 1)` leaves channel 0 with angle 0 and pulse width
1500, while consistency would require `500 + 0*2000/180 = 500`.  Moreover the
final update stores the raw `uint8_t` target without clamping, so
`cmd_execute_move(0, [255], 1)` leaves a stored angle of 255, outside
`[0,180]` — the range invariant is not preserved by MOVE for targets above
180. -/
theorem C4_counterexample :
    ((cmd_execute_move initState 0 [0] 1).1.servo_angles 0 = 0 ∧
     (cmd_execute_move initState 0 [0] 1).1.servo_pulse_widths 0 = 1500 ∧
     ¬ consistentAt (cmd_execute_move initState 0 [0] 1).1 0) ∧
    ((cmd_execute_move initState 0 [255] 1).1.servo_angles 0 = 255 ∧
     ¬ EngineWF (cmd_execute_move initState 0 [255] 1).1) := by
  decide

/-- C4, amended: the initial state holds angle 90 / pulse 1500 (consistent)
on every configured channel; every engine operation preserves the stored
ranges (angles in `[0,180]`, pulse widths in `[0,20000]`), with MOVE needing
its targets in `[0,180]` since it stores them unclamped; and consistency of
stored angle and pulse width is established by `cmd_set_servo_angle` and
`cmd_execute_pose` on the channels they set — but NOT by `cmd_execute_move`,
which updates stored angles only. -/
theorem C4_invariants (st : EngineState) (hWF : EngineWF st)
    (c a p count d : Nat) (angles ts : List Nat) (hts : ∀ x ∈ ts, x ≤ 180) :
    (EngineWF initState ∧
      (∀ i, i < NUM_SERVOS →
        initState.servo_angles i = 90 ∧ initState.servo_pulse_widths i = 1500 ∧
        consistentAt initState i)) ∧
    EngineWF (cmd_set_servo_angle st c a) ∧
    EngineWF (cmd_set_servo_pwm_us st c p) ∧
    EngineWF (cmd_execute_pose st angles count) ∧
    EngineWF (cmd_execute_move st d ts count).1 ∧
    (c < NUM_SERVOS → consistentAt (cmd_set_servo_angle st c a) c) ∧
    (c < count → c < NUM_SERVOS → consistentAt (cmd_execute_pose st angles count) c) ∧
    (∀ c2, (cmd_execute_move st d ts count).1.servo_pulse_widths c2 = st.servo_pulse_widths c2) := by
  refine ⟨⟨by decide, by decide⟩, WF_set_angle st c a hWF, WF_set_pwm st c p hWF,
    WF_pose st angles count hWF, WF_move st d ts count hWF hts, ?_, ?_, ?_⟩
  · intro hcN
    unfold consistentAt
    rw [set_angle_angles st c a c hcN, set_angle_pulses st c a c hcN, if_pos rfl, if_pos rfl]
    rfl
  · intro hcc hcN
    unfold consistentAt
    have h1 : c < min count NUM_SERVOS := by omega
    rw [pose_angles, pose_pulses, if_pos h1, if_pos h1]
    rfl
  · intro c2
    exact move_pulses st d ts count c2

theorem C4_witness :
    EngineWF (cmd_set_servo_angle initState 1 250) ∧
    consistentAt (cmd_execute_pose initState [10, 20] 2) 1 :=
  ⟨(C4_invariants initState (by decide) 1 250 9999 2 0 [10, 20] [0] (by decide)).2.1,
   (C4_invariants initState (by decide) 1 250 9999 2 0 [10, 20] [0]
      (by decide)).2.2.2.2.2.2.1 (by decide) (by decide)⟩

/-! ### C5: the MOVE(2000, [180], 1) scenario -/

/-- C5, counterexample: with `duration_ms = 2000` the code computes
`num_steps = 2000/20 = 100`, so the move performs 101 interpolation updates
(not 51); at step 25 the factor is `25*1000/100 = 250` (not 490), and the
commanded angle for a channel moving 90 → 180 is `90 + 90*250/1000 = 112`
(not 134). -/
theorem C5_counterexample :
    (cmd_execute_move initState 2000 [180] 1).2.length = 101 ∧
    ¬ (cmd_execute_move initState 2000 [180] 1).2.length = 51 ∧
    moveFactor 25 (numSteps 2000) = 250 ∧
    ¬ moveFactor 25 (numSteps 2000) = 490 ∧
    (cmd_execute_move initState 2000 [180] 1).2.getD 25 [] = [(0, 112)] ∧
    ¬ (cmd_execute_move initState 2000 [180] 1).2.getD 25 [] = [(0, 134)] := by
  decide

/-- C5, amended: from channel 0 at angle 90, `cmd_execute_move(2000, [180], 1)`
comprises `num_steps = 100`, i.e. 101 interpolation updates (steps 0..100);
at step 25 the interpolation factor is 250, so the angle commanded at that
step is `90 + (180-90)*250/1000 = 112`. -/
theorem C5_move_2000_step25 :
    numSteps 2000 = 100 ∧
    (cmd_execute_move initState 2000 [180] 1).2.length = 101 ∧
    moveFactor 25 (numSteps 2000) = 250 ∧
    (cmd_execute_move initState 2000 [180] 1).2.getD 25 []
      = [(0, 90 + (180 - 90) * 250 / 1000)] := by
  decide

/-! ### C6: duty computation -/

/-- C6, counterexample: the code truncates `pulse_us * 4096 / 20000`; the
claimed round-to-nearest differs at `pulse_us = 1000`, where the code writes
duty 204 (`4096000/20000 = 204.8` truncated) while rounding would give 205. -/
theorem C6_counterexample :
    ((pca9685_set_servo_pwm_us 0 1000).getD 0 ⟨0, 0, 0, 0, 0⟩).off_l
        + 256 * ((pca9685_set_servo_pwm_us 0 1000).getD 0 ⟨0, 0, 0, 0, 0⟩).off_h = 204 ∧
    min (round_div (1000 * 4096) 20000) 4095 = 205 ∧
    ¬ (((pca9685_set_servo_pwm_us 0 1000).getD 0 ⟨0, 0, 0, 0, 0⟩).off_l
        + 256 * ((pca9685_set_servo_pwm_us 0 1000).getD 0 ⟨0, 0, 0, 0, 0⟩).off_h
      = min (round_div (1000 * 4096) 20000) 4095) := by
  decide

/-- C6, amended: for every pulse width in `[0,20000]` and valid channel, the
12-bit duty value written to the channel's off-tick registers equals
`pulse_us * 4096 / 20000` with TRUNCATING division (not round-to-nearest),
clamped to 4095. -/
theorem C6_duty_floor (channel pulse_us : Nat) (hch : channel < PCA9685_CHANNELS)
    (_hp : pulse_us ≤ 20000) :
    ∃ w : PwmRegWrite,
      pca9685_set_servo_pwm_us channel pulse_us = [w] ∧
      w.reg = PCA9685_LED0_ON_L + channel * 4 ∧
      w.on_l = 0 ∧ w.on_h = 0 ∧
      w.off_l + 256 * w.off_h = min (pulse_us * 4096 / 20000) 4095 := by
  have hv : pca9685_pwm_value pulse_us = min (pulse_us * 4096 / 20000) 4095 := by
    unfold pca9685_pwm_value
    dsimp only
    split <;> omega
  have hle : pca9685_pwm_value pulse_us ≤ 4095 := by
    rw [hv]; omega
  unfold pca9685_set_servo_pwm_us pca9685_set_pwm
  rw [if_neg (by omega)]
  exact ⟨_, rfl, rfl, by norm_num, by norm_num, by dsimp only; omega⟩

theorem C6_witness :
    ∃ w : PwmRegWrite,
      pca9685_set_servo_pwm_us 3 1500 = [w] ∧
      w.reg = PCA9685_LED0_ON_L + 3 * 4 ∧
      w.on_l = 0 ∧ w.on_h = 0 ∧
      w.off_l + 256 * w.off_h = min (1500 * 4096 / 20000) 4095 :=
  C6_duty_floor 3 1500 (by decide) (by decide)

/-! ### C7: atomic failure of POSE parsing -/

/-- C7: whenever the angle list of a POSE line is malformed (a non-digit
where a value is expected, a value above 180, or a stray character where a
comma or end-of-string was expected — exactly the cases in which
`parse_angle_list` fails), `execute_pose_command` leaves the engine state
untouched and returns the error reply code; in particular the line
`POSE 90,45,999` modifies no channel. -/
theorem C7_pose_atomic (st : EngineState) (cmd : List Char)
    (h : parse_angle_list (cmd.drop 5) NUM_SERVOS = none) :
    execute_pose_command st cmd = (st, CMD_ERROR) ∧
    execute_pose_command st "POSE 90,45,999".data = (st, CMD_ERROR) := by
  constructor
  · unfold execute_pose_command
    by_cases hl : cmd.length < 6
    · rw [if_pos hl]
    · rw [if_neg hl]
      dsimp only
      rw [h]
  · unfold execute_pose_command
    rw [if_neg (by decide)]
    dsimp only
    rw [show parse_angle_list ("POSE 90,45,999".data.drop 5) NUM_SERVOS = none from by decide]

theorem C7_witness :
    execute_pose_command initState "POSE 12,x".data = (initState, CMD_ERROR) :=
  (C7_pose_atomic initState "POSE 12,x".data (by decide)).1

/-! ### C8: set_pulse_us never touches angles -/

/-- C8: `cmd_set_servo_pwm_us(c, p)` clamps the pulse to `[0,20000]`, updates
only channel `c`'s stored pulse width, and never changes any channel's stored
angle or the value `cmd_get_servo_angle` returns. -/
theorem C8_set_pulse_frame (st : EngineState) (c p : Nat) :
    (∀ c2, (cmd_set_servo_pwm_us st c p).servo_angles c2 = st.servo_angles c2) ∧
    (∀ c2, cmd_get_servo_angle (cmd_set_servo_pwm_us st c p) c2 = cmd_get_servo_angle st c2) ∧
    (c < NUM_SERVOS → (cmd_set_servo_pwm_us st c p).servo_pulse_widths c = min p 20000) ∧
    (∀ c2, c2 ≠ c → (cmd_set_servo_pwm_us st c p).servo_pulse_widths c2 = st.servo_pulse_widths c2) := by
  have hangles : ∀ c2, (cmd_set_servo_pwm_us st c p).servo_angles c2 = st.servo_angles c2 := by
    intro c2
    unfold cmd_set_servo_pwm_us
    split <;> rfl
  refine ⟨hangles, ?_, ?_, ?_⟩
  · intro c2
    unfold cmd_get_servo_angle
    rw [hangles c2]
  · intro hcN
    unfold cmd_set_servo_pwm_us
    rw [if_neg (by omega)]
    dsimp only
    rw [if_pos rfl]
    split <;> omega
  · intro c2 hne
    unfold cmd_set_servo_pwm_us
    split
    · rfl
    · dsimp only
      rw [if_neg hne]

theorem C8_witness :
    (cmd_set_servo_pwm_us initState 0 30000).servo_pulse_widths 0 = min 30000 20000 ∧
    (cmd_set_servo_pwm_us initState 0 30000).servo_angles 4 = initState.servo_angles 4 :=
  ⟨(C8_set_pulse_frame initState 0 30000).2.2.1 (by decide),
   (C8_set_pulse_frame initState 0 30000).1 4⟩

/-! ### C9: the MOTORS menu screen -/

/-- A concrete MOTORS-screen context (fresh from `cmd_init` and
`lcd_menu_init`) used by the C9 theorems. -/
def motorsCtx : MenuCtx :=
  { current_state := MenuState.motors, menu_selection := 0, selected_servo := 0,
    move_duration := 1000, temp_angles := fun _ => 90, engine := initState }

/-- C9, counterexample: in `src/firmware/lcd_menu.c` the button roles are the
opposite of the claim.  From the fresh MOTORS context (channel 0 selected,
all angles 90), a LEFT press does not change the selected channel index —
it decrements channel 0's live angle to 85, so it is not true that left/right
change only the selection; and an UP press does not adjust the angle — it
moves the selection from 0 to `NUM_SERVOS - 1 = 5` (wraparound, not clamped). -/
theorem C9_counterexample :
    ¬ ((lcd_menu_update_motors motorsCtx Button.left).engine.servo_angles 0
        = motorsCtx.engine.servo_angles 0) ∧
    (lcd_menu_update_motors motorsCtx Button.left).engine.servo_angles 0 = 85 ∧
    (lcd_menu_update_motors motorsCtx Button.left).selected_servo = 0 ∧
    (lcd_menu_update_motors motorsCtx Button.up).selected_servo = NUM_SERVOS - 1 ∧
    (lcd_menu_update_motors motorsCtx Button.up).engine.servo_angles 0 = 90 := by
  decide

/-- C9, amended: in the MOTORS menu state, an UP or DOWN press changes only
the selected channel index, with wraparound at the bounds 0 and
`NUM_SERVOS - 1`; a RIGHT or LEFT press keeps the selection and adjusts the
selected channel's live angle by 5 degrees, clamped to `[0,180]` — a RIGHT
press at an angle of 176..179 commands exactly 180, a LEFT press at 1..4
commands exactly 0, and a press at the exact limit (180 for RIGHT, 0 for
LEFT) leaves the engine state unchanged — immediately invoking
`cmd_set_servo_angle` whenever the angle changes (so the stored pulse width
stays consistent); a SELECT press returns the state machine to MENU. -/
theorem C9_motors_buttons (ctx : MenuCtx) (hss : ctx.selected_servo < NUM_SERVOS) :
    ((lcd_menu_update_motors ctx Button.up).selected_servo
        = if ctx.selected_servo = 0 then NUM_SERVOS - 1 else ctx.selected_servo - 1) ∧
    (lcd_menu_update_motors ctx Button.up).engine = ctx.engine ∧
    ((lcd_menu_update_motors ctx Button.down).selected_servo
        = if ctx.selected_servo = NUM_SERVOS - 1 then 0 else ctx.selected_servo + 1) ∧
    (lcd_menu_update_motors ctx Button.down).engine = ctx.engine ∧
    (lcd_menu_update_motors ctx Button.right).selected_servo = ctx.selected_servo ∧
    (lcd_menu_update_motors ctx Button.left).selected_servo = ctx.selected_servo ∧
    (ctx.engine.servo_angles ctx.selected_servo ≤ 175 →
      (lcd_menu_update_motors ctx Button.right).engine.servo_angles ctx.selected_servo
          = ctx.engine.servo_angles ctx.selected_servo + 5 ∧
      consistentAt (lcd_menu_update_motors ctx Button.right).engine ctx.selected_servo) ∧
    (175 < ctx.engine.servo_angles ctx.selected_servo →
      ctx.engine.servo_angles ctx.selected_servo < 180 →
      (lcd_menu_update_motors ctx Button.right).engine.servo_angles ctx.selected_servo = 180 ∧
      consistentAt (lcd_menu_update_motors ctx Button.right).engine ctx.selected_servo) ∧
    (180 ≤ ctx.engine.servo_angles ctx.selected_servo →
      (lcd_menu_update_motors ctx Button.right).engine = ctx.engine) ∧
    (5 ≤ ctx.engine.servo_angles ctx.selected_servo →
      ctx.engine.servo_angles ctx.selected_servo ≤ 180 →
      (lcd_menu_update_motors ctx Button.left).engine.servo_angles ctx.selected_servo
          = ctx.engine.servo_angles ctx.selected_servo - 5 ∧
      consistentAt (lcd_menu_update_motors ctx Button.left).engine ctx.selected_servo) ∧
    (0 < ctx.engine.servo_angles ctx.selected_servo →
      ctx.engine.servo_angles ctx.selected_servo < 5 →
      (lcd_menu_update_motors ctx Button.left).engine.servo_angles ctx.selected_servo = 0 ∧
      consistentAt (lcd_menu_update_motors ctx Button.left).engine ctx.selected_servo) ∧
    (ctx.engine.servo_angles ctx.selected_servo = 0 →
      (lcd_menu_update_motors ctx Button.left).engine = ctx.engine) ∧
    (lcd_menu_update_motors ctx Button.select).current_state = MenuState.menu ∧
    (lcd_menu_update_motors ctx Button.select).engine = ctx.engine := by
  have hget : cmd_get_servo_angle ctx.engine ctx.selected_servo
      = ctx.engine.servo_angles ctx.selected_servo := by
    unfold cmd_get_servo_angle
    rw [if_neg (by omega)]
  refine ⟨?_, rfl, ?_, rfl, ?_, ?_, ?_, ?_, ?_, ?_, ?_, ?_, rfl, rfl⟩
  · unfold lcd_menu_update_motors
    dsimp only
    split_ifs <;> omega
  · unfold lcd_menu_update_motors
    dsimp only
    split_ifs <;> omega
  · unfold lcd_menu_update_motors
    dsimp only
    rw [hget]
    split <;> rfl
  · unfold lcd_menu_update_motors
    dsimp only
    rw [hget]
    split <;> rfl
  · intro hle
    unfold lcd_menu_update_motors
    dsimp only
    rw [hget, if_pos (by omega), if_neg (by omega)]
    constructor
    · rw [set_angle_angles _ _ _ _ hss, if_pos rfl, if_neg (by omega)]
    · unfold consistentAt
      rw [set_angle_angles _ _ _ _ hss, set_angle_pulses _ _ _ _ hss,
        if_pos rfl, if_pos rfl, if_neg (by omega)]
      rfl
  · intro h175 h180
    unfold lcd_menu_update_motors
    dsimp only
    rw [hget, if_pos (by omega), if_pos (by omega)]
    constructor
    · rw [set_angle_angles _ _ _ _ hss, if_pos rfl, if_neg (by omega)]
    · unfold consistentAt
      rw [set_angle_angles _ _ _ _ hss, set_angle_pulses _ _ _ _ hss,
        if_pos rfl, if_pos rfl, if_neg (by omega)]
      rfl
  · intro h180
    unfold lcd_menu_update_motors
    dsimp only
    rw [hget, if_neg (by omega)]
  · intro h5 h180
    unfold lcd_menu_update_motors
    dsimp only
    rw [hget, if_pos (by omega), if_pos (by omega)]
    constructor
    · rw [set_angle_angles _ _ _ _ hss, if_pos rfl, if_neg (by omega)]
    · unfold consistentAt
      rw [set_angle_angles _ _ _ _ hss, set_angle_pulses _ _ _ _ hss,
        if_pos rfl, if_pos rfl, if_neg (by omega)]
      rfl
  · intro h0 h5
    unfold lcd_menu_update_motors
    dsimp only
    rw [hget, if_pos (by omega), if_neg (by omega)]
    constructor
    · rw [set_angle_angles _ _ _ _ hss, if_pos rfl, if_neg (by omega)]
    · unfold consistentAt
      rw [set_angle_angles _ _ _ _ hss, set_angle_pulses _ _ _ _ hss,
        if_pos rfl, if_pos rfl, if_neg (by omega)]
      rfl
  · intro h0
    unfold lcd_menu_update_motors
    dsimp only
    rw [hget, if_neg (by omega)]

theorem C9_witness :
    (lcd_menu_update_motors motorsCtx Button.right).engine.servo_angles 0
      = motorsCtx.engine.servo_angles 0 + 5 ∧
    (lcd_menu_update_motors
        { motorsCtx with engine := cmd_set_servo_angle initState 0 177 }
        Button.right).engine.servo_angles 0 = 180 ∧
    (lcd_menu_update_motors
        { motorsCtx with engine := cmd_set_servo_angle initState 0 3 }
        Button.left).engine.servo_angles 0 = 0 :=
  ⟨((C9_motors_buttons motorsCtx (by decide)).2.2.2.2.2.2.1 (by decide)).1,
   ((C9_motors_buttons { motorsCtx with engine := cmd_set_servo_angle initState 0 177 }
      (by decide)).2.2.2.2.2.2.2.1 (by decide) (by decide)).1,
   ((C9_motors_buttons { motorsCtx with engine := cmd_set_servo_angle initState 0 3 }
      (by decide)).2.2.2.2.2.2.2.2.2.2.1 (by decide) (by decide)).1⟩

/-! ### C10: 16-bit wraparound in numeric fields -/

/-- Folding the decimal accumulation respects congruence modulo 2^16. -/
theorem foldl_dec_mod (ds : List Char) :
    ∀ x y : Nat, x % 65536 = y % 65536 →
    (ds.foldl (fun a c => a * 10 + (c.toNat - '0'.toNat)) x) % 65536
      = (ds.foldl (fun a c => a * 10 + (c.toNat - '0'.toNat)) y) % 65536 := by
  induction ds with
  | nil => intro x y h; exact h
  | cons c rest ih =>
      intro x y h
      simp only [List.foldl_cons]
      exact ih _ _ (by omega)

/-- The `parse_uint16` digit loop computes the decimal value modulo 2^16. -/
theorem parse_uint16_digits_eq (ds : List Char) :
    ∀ acc : Nat, acc < 65536 → (∀ c ∈ ds, isDecDigit c) →
    parse_uint16_digits ds acc
      = ((ds.foldl (fun a c => a * 10 + (c.toNat - '0'.toNat)) acc) % 65536, []) := by
  induction ds with
  | nil =>
      intro acc ha _
      unfold parse_uint16_digits
      rw [List.foldl_nil, Nat.mod_eq_of_lt ha]
  | cons c rest ih =>
      intro acc ha hd
      unfold parse_uint16_digits
      rw [if_pos (hd c (by simp))]
      rw [ih _ (Nat.mod_lt _ (by norm_num)) (fun x hx => hd x (by simp [hx]))]
      simp only [List.foldl_cons]
      exact congrArg (fun v => (v, ([] : List Char))) (foldl_dec_mod rest _ _ (by omega))

/-- C10: every unsigned decimal field is accumulated into a `uint16_t` with
no overflow check, so a digit string parses to its written decimal value
modulo 65536 before any range validation; consequently `P0:65536` is accepted
(`CMD_OK`) and sets channel 0's pulse width to 0, and `POSE 65716` is
accepted and sets channel 0's angle to 180. -/
theorem C10_uint16_wraparound (ds : List Char) (hne : ds ≠ [])
    (hdig : ∀ c ∈ ds, isDecDigit c) :
    parse_uint16 ds = some (decValue ds % 65536, []) ∧
    (execute_pwm_command initState "P0:65536".data).2 = CMD_OK ∧
    (execute_pwm_command initState "P0:65536".data).1.servo_pulse_widths 0 = 0 ∧
    (execute_pose_command initState "POSE 65716".data).2 = CMD_OK ∧
    (execute_pose_command initState "POSE 65716".data).1.servo_angles 0 = 180 := by
  refine ⟨?_, by decide, by decide, by decide, by decide⟩
  match ds, hne with
  | c :: rest, _ =>
    show (if isDecDigit c = true then some (parse_uint16_digits (c :: rest) 0) else none)
      = some (decValue (c :: rest) % 65536, [])
    rw [if_pos (hdig c (by simp))]
    rw [parse_uint16_digits_eq (c :: rest) 0 (by norm_num) hdig]
    rfl

theorem C10_witness :
    parse_uint16 "65536".data = some (decValue "65536".data % 65536, []) :=
  (C10_uint16_wraparound "65536".data (by decide) (by decide)).1

end RobotArm
